import Mathlib

/-!
# Verification of the DSM receipt PDF generator layout engine

Shallow embedding of `src/lib/pdf-generator.ts`. Numeric quantities (mm
coordinates and intrinsic pixel sizes) are modelled as exact rationals `ℚ`;
the source performs the same field arithmetic on IEEE doubles. Side effects
on the external Document Writer (jsPDF) are modelled as a trace of events,
and fallible collaborator calls are modelled with `Except` over an
environment of success flags describing the collaborators' behavior.

The caption fallback (`addKoreanText` line 58) returns a promise that no
caller ever awaits: its raster placement fires in a later task, after the
synchronous remainder of the pipeline, and anything thrown inside it (a
rasterization failure, a failing raster `pdf.addImage`) is discarded with
the promise and never reaches `generatePDF`'s catch. The model therefore
carries those fallback placements as *deferred* events, appended after the
save call, and gives the fallback no error path at all.
-/

/-- A loaded raster image: intrinsic pixel width and height
(`HTMLImageElement.width/height` in the source). -/
structure Img where
  width : ℚ
  height : ℚ
  deriving DecidableEq

/-- Embeds `calculateImageDimensions` (src/lib/pdf-generator.ts lines 100–124).
The source mutates `width`/`height` sequentially; here each mutation step is a
fresh pair `p1`, `p2`, `p3`. `aspect` is the source's local ratio variable
(`img.width / img.height`). -/
def calculateImageDimensions (img : Img) (maxWidth maxHeight : ℚ) : ℚ × ℚ :=
  let aspect : ℚ := img.width / img.height
  let w0 : ℚ := maxWidth
  let h0 : ℚ := w0 / aspect
  let p1 : ℚ × ℚ := if h0 > maxHeight then (maxHeight * aspect, maxHeight) else (w0, h0)
  let minWidth : ℚ := 40
  let minHeight : ℚ := 30
  let p2 : ℚ × ℚ := if p1.1 < minWidth then (minWidth, minWidth / aspect) else p1
  let p3 : ℚ × ℚ := if p2.2 < minHeight then (minHeight * aspect, minHeight) else p2
  p3

/-- Modelled from the spec: the "width-first fill" of a box `(W, H)` by an
image of aspect ratio `r` — `(W, W/r)` when that fits vertically, otherwise
`(H*r, H)`. Used to compare the code's behavior against the spec's wording. -/
def widthFirstFill (r W H : ℚ) : ℚ × ℚ :=
  if W / r ≤ H then (W, W / r) else (H * r, H)

/-! ## Trace model of `generatePDF`

`generatePDF` drives the external jsPDF Document Writer. We record its calls
as a trace of events. A `jsPDF` document starts with one page; `addPage`
events add further pages. The environment `Env` fixes the behavior of the
external collaborators: which URLs load (and to what intrinsic size), whether
direct text placement works (`textOk`, the source's try/catch around
`pdf.text`), the pixel size of the canvas-rendered caption raster, and
whether rasterization, image placement and saving succeed. -/

/-- One observable call to the Document Writer. -/
inductive Event where
  /-- Direct caption text placed at `(x, y)` (`addKoreanText`, success path). -/
  | caption (x y fontSize : ℚ)
  /-- Rasterized caption placed as an image (`addTextAsImage` fallback). -/
  | captionImg (x y w h : ℚ)
  /-- An image placed at `(x, y)` with size `(w, h)` (`pdf.addImage`). -/
  | image (x y w h : ℚ)
  /-- `pdf.addPage()`. -/
  | page
  /-- `pdf.save(name)`. -/
  | save (name : String)
  deriving DecidableEq

/-- Which collaborator step failed (the thrown error before the outer catch).
Rasterization failures have no representation: they happen inside the
discarded fallback promise and are never observable to `generatePDF`. -/
inductive StepErr where
  | imageLoad (url : String)
  | imagePlace
  | saveFail
  deriving DecidableEq

/-- Behavior of the external collaborators during one `generatePDF` run. -/
structure Env where
  /-- Whether `loadImage` succeeds for a given URL. -/
  loadOk : String → Bool
  /-- Intrinsic dimensions of the image a URL decodes to. -/
  loaded : String → Img
  /-- Whether direct `pdf.text` placement succeeds (`addKoreanText` try). -/
  textOk : Bool
  /-- Pixel dimensions of the caption raster exported by the canvas. -/
  raster : Img
  /-- Whether the canvas rasterization round-trip succeeds. Its failure is
  swallowed with the discarded fallback promise, never surfacing. -/
  rasterOk : Bool
  /-- Whether `pdf.addImage` succeeds. -/
  placeOk : Bool
  /-- Whether `pdf.save` succeeds. -/
  saveOk : Bool

/-- One uploaded image (source `ImageData`; the `file` field is never read by
`generatePDF`, only the object URL, so only the URL is modelled). -/
structure ImageData where
  url : String
  deriving DecidableEq, Inhabited

/-- Source `PDFData`. -/
structure PDFData where
  studentId : String
  studentName : String
  images : List ImageData

/-- Embeds the local `loadImage` helper (lines 32–40): resolves a URL to a
decoded image or rejects. -/
def loadImage (env : Env) (url : String) : Except StepErr Img :=
  if env.loadOk url then .ok (env.loaded url) else .error (.imageLoad url)

/-- One `pdf.addImage` call for a content image. -/
def placeImage (env : Env) (x y w h : ℚ) : Except StepErr (List Event) :=
  if env.placeOk then .ok [.image x y w h] else .error .imagePlace

/-- One `pdf.save` call. -/
def savePDF (env : Env) (name : String) : Except StepErr (List Event) :=
  if env.saveOk then .ok [.save name] else .error .saveFail

/-- Embeds `addTextAsImage` (lines 63–97): the caption is drawn on a
2000×200 canvas, exported as a raster of pixel size `env.raster`, and placed
at display width `textWidth = 120` with height preserving the raster's aspect
ratio, centered on the anchor `(x, y)` (lines 90–92). Every caller discards
the returned promise un-awaited, so the raster `pdf.addImage` fires in a
later task and nothing thrown inside the executor or the `onload` handler is
ever observed. The value is the list of *deferred* Writer calls the fallback
will make: the raster caption placement when rasterization and placement
succeed, nothing otherwise — never an error. -/
def addTextAsImage (env : Env) (x y fontSize : ℚ) : List Event :=
  if env.rasterOk then
    let textWidth : ℚ := 120
    let textHeight : ℚ := env.raster.height / env.raster.width * textWidth
    if env.placeOk then
      [.captionImg (x - textWidth / 2) (y - textHeight / 2) textWidth textHeight]
    else []
  else []

/-- Embeds `addKoreanText` (lines 43–60): try direct `pdf.text`; on failure
fall back to `addTextAsImage` at triple font size, returning its promise
without awaiting it (line 58). The result is (immediate Writer calls,
deferred Writer calls); the font size influences no placement geometry.
Since `addKoreanText` catches internally it never throws, so the
`catch { await addTextAsImage ... }` at its call sites is dead code. -/
def addKoreanText (env : Env) (x y fontSize : ℚ) : List Event × List Event :=
  if env.textOk then ([.caption x y fontSize], [])
  else ([], addTextAsImage env x y (fontSize * 3))

/-- A4 portrait page width in mm (line 19). -/
def pageWidth : ℚ := 210
/-- A4 portrait page height in mm (line 20). -/
def pageHeight : ℚ := 297
/-- Page margin in mm (line 21). -/
def margin : ℚ := 20
/-- Content width (line 22). -/
def contentWidth : ℚ := pageWidth - margin * 2
/-- Content height (line 23). -/
def contentHeight : ℚ := pageHeight - margin * 2

/-- The if-chain on `images.length` inside the `try` block of `generatePDF`
(lines 127–244): computes the page layout events (captions, images, page
breaks) for 1, 2 or 3 images, and nothing for any other count, paired with
the deferred Writer calls of any un-awaited caption fallback. Each branch is
embedded with the source's own (duplicated) arithmetic. -/
def layoutPages (env : Env) (data : PDFData) : Except StepErr (List Event × List Event) :=
  if data.images.length = 1 then do
    -- Single image layout (lines 127–146)
    let img ← loadImage env (data.images[0]!).url
    let textY := margin + 15
    let availableHeight := contentHeight - 40
    let d := calculateImageDimensions img (contentWidth * 0.8) (availableHeight * 0.8)
    let imageX := margin + (contentWidth - d.1) / 2
    let imageY := margin + 40
    let textX := pageWidth / 2
    let cap := addKoreanText env textX textY 28
    let pl ← placeImage env imageX imageY d.1 d.2
    pure (cap.1 ++ pl, cap.2)
  else if data.images.length = 2 then do
    -- Two images horizontally side by side (lines 147–183)
    let img1 ← loadImage env (data.images[0]!).url
    let img2 ← loadImage env (data.images[1]!).url
    let textY := margin + 15
    let gap : ℚ := 15
    let availableWidth := (contentWidth - gap) / 2
    let availableHeight := contentHeight - 40
    let textX := pageWidth / 2
    let cap := addKoreanText env textX textY 28
    let d1 := calculateImageDimensions img1 (availableWidth * 0.9) (availableHeight * 0.9)
    let d2 := calculateImageDimensions img2 (availableWidth * 0.9) (availableHeight * 0.9)
    let image1X := margin + (availableWidth - d1.1) / 2
    let image1Y := margin + 40 + (availableHeight - d1.2) / 2
    let image2X := margin + availableWidth + gap + (availableWidth - d2.1) / 2
    let image2Y := margin + 40 + (availableHeight - d2.2) / 2
    let p1 ← placeImage env image1X image1Y d1.1 d1.2
    let p2 ← placeImage env image2X image2Y d2.1 d2.2
    pure (cap.1 ++ p1 ++ p2, cap.2)
  else if data.images.length = 3 then do
    -- First page: two images horizontally (lines 184–220)
    let img1 ← loadImage env (data.images[0]!).url
    let img2 ← loadImage env (data.images[1]!).url
    let textY := margin + 15
    let gap : ℚ := 15
    let availableWidth := (contentWidth - gap) / 2
    let availableHeight := contentHeight - 40
    let textX := pageWidth / 2
    let cap := addKoreanText env textX textY 28
    let d1 := calculateImageDimensions img1 (availableWidth * 0.9) (availableHeight * 0.9)
    let d2 := calculateImageDimensions img2 (availableWidth * 0.9) (availableHeight * 0.9)
    let image1X := margin + (availableWidth - d1.1) / 2
    let image1Y := margin + 40 + (availableHeight - d1.2) / 2
    let image2X := margin + availableWidth + gap + (availableWidth - d2.1) / 2
    let image2Y := margin + 40 + (availableHeight - d2.2) / 2
    let p1 ← placeImage env image1X image1Y d1.1 d1.2
    let p2 ← placeImage env image2X image2Y d2.1 d2.2
    -- Second page: single image (lines 222–243)
    let img3 ← loadImage env (data.images[2]!).url
    let availableHeight3 := contentHeight - 40
    let d3 := calculateImageDimensions img3 (contentWidth * 0.8) (availableHeight3 * 0.8)
    let image3X := margin + (contentWidth - d3.1) / 2
    let image3Y := margin + 40
    let text2X := pageWidth / 2
    let text2Y := margin + 15
    let cap2 := addKoreanText env text2X text2Y 28
    let p3 ← placeImage env image3X image3Y d3.1 d3.2
    pure (cap.1 ++ p1 ++ p2 ++ [Event.page] ++ cap2.1 ++ p3, cap.2 ++ cap2.2)
  else
    pure ([], [])

/-- Output artifact name, `${studentId}_${studentName}.pdf` (line 247). -/
def fileName (data : PDFData) : String :=
  data.studentId ++ "_" ++ data.studentName ++ ".pdf"

/-- The whole `try` block of `generatePDF` (lines 126–248): lay out the pages,
then save the document under its file name. The deferred fallback placements
fire in later tasks; for 1- and 2-image runs nothing is awaited between the
fallback trigger and `pdf.save`, so they necessarily fire after the save, and
the model schedules every deferred call there (for the 3-image run this is
one admissible schedule — the page-1 fallback races the third image load, and
on no admissible schedule does it precede the content images of page 1). -/
def generateBody (env : Env) (data : PDFData) : Except StepErr (List Event) := do
  let evs ← layoutPages env data
  let sv ← savePDF env (fileName data)
  pure (evs.1 ++ sv ++ evs.2)

/-- The single user-facing error message of the outer catch (line 251). -/
def errMsg : String := "PDF 생성 중 오류가 발생했습니다."

/-- Embeds `generatePDF` (lines 12–253): run the body; any thrown step error
is replaced by the one localized `GenerationError` (lines 249–252). -/
def generatePDF (env : Env) (data : PDFData) : Except String (List Event) :=
  match generateBody env data with
  | .ok t => .ok t
  | .error _ => .error errMsg

/-- Is this event an `addPage` call? -/
def isPageEv : Event → Bool
  | .page => true
  | _ => false

/-- Is this event a caption placement (direct text or rasterized fallback)? -/
def isCaptionEv : Event → Bool
  | .caption _ _ _ => true
  | .captionImg _ _ _ _ => true
  | _ => false

/-- Is this event a content-image placement? -/
def isImageEv : Event → Bool
  | .image _ _ _ _ => true
  | _ => false

/-- Number of pages of the finished document: jsPDF starts with one page and
each `addPage` event adds one. -/
def pageCount (t : List Event) : Nat := 1 + t.countP isPageEv

/-- Within one page's event segment: after the first content-image placement
no caption placement occurs, i.e. the caption precedes every image. -/
def capBeforeImg (t : List Event) : Bool :=
  (t.dropWhile fun e => !isImageEv e).all fun e => !isCaptionEv e

/-- Split a trace into per-page segments at the `addPage` events. The head
segment is the first page (jsPDF's initial page), each later segment the page
opened by one `addPage`. -/
def pageSegments : List Event → List (List Event)
  | [] => [[]]
  | e :: rest =>
      match pageSegments rest with
      | [] => []
      | s :: ss => if isPageEv e then [] :: s :: ss else (e :: s) :: ss

/-- Page count of a finished run: `none` if generation failed. -/
def resultPageCount : Except String (List Event) → Option Nat
  | .ok t => some (pageCount t)
  | .error _ => none

/-- A successful run whose trace splits into `expected` page segments, each
placing its caption before any content image. -/
def pagewiseOk (expected : Nat) : Except String (List Event) → Prop
  | .ok t => (pageSegments t).all capBeforeImg = true ∧ (pageSegments t).length = expected
  | .error _ => False

/-! ## Concrete collaborator environments used as witnesses -/

/-- Every collaborator succeeds; every URL decodes to a very wide 10×1 image;
the caption raster is 2000×200 (the canvas size). -/
def envWide : Env := ⟨fun _ => true, fun _ => ⟨10, 1⟩, true, ⟨2000, 200⟩, true, true, true⟩

/-- Every collaborator succeeds; every URL decodes to a square 100×100 image. -/
def envSquare : Env := ⟨fun _ => true, fun _ => ⟨100, 100⟩, true, ⟨2000, 200⟩, true, true, true⟩

/-- Every image load fails; everything else succeeds. -/
def envLoadFail : Env := ⟨fun _ => false, fun _ => ⟨100, 100⟩, true, ⟨2000, 200⟩, true, true, true⟩

/-- Direct text placement fails, so the canvas fallback is used; every other
collaborator succeeds; every URL decodes to a square 100×100 image. -/
def envFallback : Env := ⟨fun _ => true, fun _ => ⟨100, 100⟩, false, ⟨2000, 200⟩, true, true, true⟩

/-- Direct text placement fails and the canvas rasterization of the fallback
also fails; every other collaborator succeeds. -/
def envRasterFail : Env := ⟨fun _ => true, fun _ => ⟨100, 100⟩, false, ⟨2000, 200⟩, false, true, true⟩

/-- A no-image generation request. -/
def dataNone : PDFData := ⟨"1", "n", []⟩

/-- A one-image generation request. -/
def dataOne : PDFData := ⟨"1", "n", [⟨"u1"⟩]⟩

/-- A two-image generation request. -/
def dataTwo : PDFData := ⟨"1", "n", [⟨"u1"⟩, ⟨"u2"⟩]⟩

/-- A three-image generation request. -/
def dataThree : PDFData := ⟨"1", "n", [⟨"u1"⟩, ⟨"u2"⟩, ⟨"u3"⟩]⟩

/-! ## Reduction helpers -/

lemma bindStep_ok {α β : Type} (x : α) (f : α → Except StepErr β) :
    (Except.ok x >>= f) = f x := rfl

lemma bindStep_err {α β : Type} (e : StepErr) (f : α → Except StepErr β) :
    ((Except.error e : Except StepErr α) >>= f) = .error e := rfl

lemma getBang_zero {α : Type} [Inhabited α] (a : α) (l : List α) : (a :: l)[0]! = a := by
  rw [getElem!_pos (a :: l) 0 (by simp)]; simp

lemma getBang_one {α : Type} [Inhabited α] (a b : α) (l : List α) : (a :: b :: l)[1]! = b := by
  rw [getElem!_pos (a :: b :: l) 1 (by simp)]; simp

lemma getBang_two {α : Type} [Inhabited α] (a b c : α) (l : List α) :
    (a :: b :: c :: l)[2]! = c := by
  rw [getElem!_pos (a :: b :: c :: l) 2 (by simp)]; simp

/-! ## Facts about `calculateImageDimensions` -/

/-- Core facts about `calculateImageDimensions` for an image with positive
intrinsic dimensions: the returned width equals the returned height times the
intrinsic aspect ratio, the width is at least 40 and the height at least 30. -/
lemma calc_basic (img : Img) (W H : ℚ) (hw : 0 < img.width) (hh : 0 < img.height) :
    (calculateImageDimensions img W H).1
        = (calculateImageDimensions img W H).2 * (img.width / img.height)
      ∧ 40 ≤ (calculateImageDimensions img W H).1
      ∧ 30 ≤ (calculateImageDimensions img W H).2 := by
  have hr : 0 < img.width / img.height := div_pos hw hh
  simp only [calculateImageDimensions]
  set r := img.width / img.height with hrd
  have hr0 : r ≠ 0 := ne_of_gt hr
  split_ifs with h1 h2 h3 h4 h5 h6 h7 <;>
    dsimp only at * <;>
    push_neg at * <;>
    refine ⟨by first | rfl | field_simp, ?_, ?_⟩ <;>
    simp only [gt_iff_lt, div_lt_iff₀ hr, lt_div_iff₀ hr, le_div_iff₀ hr, div_le_iff₀ hr] at * <;>
    nlinarith [hr]

/-- If the box is at least 40 wide and wide enough to absorb the worst case of
the minimum-height clamp (`30 * aspect ≤ W`), the returned width stays within
the box width. -/
lemma calc_width_le (img : Img) (W H : ℚ) (hw : 0 < img.width) (hh : 0 < img.height)
    (h40 : 40 ≤ W) (h30 : 30 * (img.width / img.height) ≤ W) :
    (calculateImageDimensions img W H).1 ≤ W := by
  have hr : 0 < img.width / img.height := div_pos hw hh
  simp only [calculateImageDimensions]
  set r := img.width / img.height with hrd
  split_ifs with h1 h2 h3 h4 h5 h6 h7 <;>
    dsimp only at * <;>
    push_neg at * <;>
    simp only [gt_iff_lt, div_lt_iff₀ hr, lt_div_iff₀ hr, le_div_iff₀ hr, div_le_iff₀ hr] at * <;>
    nlinarith [hr]

/-! ## Claims about `calculateImageDimensions` (C1, C7, C10) -/

/-- C1: For every image with strictly positive intrinsic width and height
(intrinsic ratio `r = width/height`) and every bounding box `(W, H)`, the
placement returned by `calculateImageDimensions` satisfies
`width/height = r`, `width ≥ 40`, and `height ≥ 30`. -/
theorem c1_ratio_and_minimum_size (img : Img) (W H : ℚ)
    (hw : 0 < img.width) (hh : 0 < img.height) :
    (calculateImageDimensions img W H).1 / (calculateImageDimensions img W H).2
        = img.width / img.height
      ∧ 40 ≤ (calculateImageDimensions img W H).1
      ∧ 30 ≤ (calculateImageDimensions img W H).2 := by
  obtain ⟨hratio, h40, h30⟩ := calc_basic img W H hw hh
  have h2 : (calculateImageDimensions img W H).2 ≠ 0 := by linarith
  refine ⟨?_, h40, h30⟩
  rw [hratio, mul_comm, mul_div_assoc, div_self h2, mul_one]

/-- Witness for C1 at a 100×100 image in a 100×100 box. -/
theorem c1_ratio_and_minimum_size_witness :
    (calculateImageDimensions ⟨100, 100⟩ 100 100).1 / (calculateImageDimensions ⟨100, 100⟩ 100 100).2
        = (Img.mk 100 100).width / (Img.mk 100 100).height
      ∧ 40 ≤ (calculateImageDimensions ⟨100, 100⟩ 100 100).1
      ∧ 30 ≤ (calculateImageDimensions ⟨100, 100⟩ 100 100).2 :=
  c1_ratio_and_minimum_size ⟨100, 100⟩ 100 100 (by norm_num) (by norm_num)

/-- C10: For every image with strictly positive intrinsic dimensions and
every box with strictly positive bounds, no division in
`calculateImageDimensions` divides by zero (`img.height` and the aspect ratio
are nonzero) and the returned width and height are strictly positive (and, as
rationals, finite). -/
theorem c10_no_division_by_zero_positive_result (img : Img) (W H : ℚ)
    (hw : 0 < img.width) (hh : 0 < img.height) (hW : 0 < W) (hH : 0 < H) :
    img.height ≠ 0 ∧ img.width / img.height ≠ 0
      ∧ 0 < (calculateImageDimensions img W H).1
      ∧ 0 < (calculateImageDimensions img W H).2 := by
  obtain ⟨hratio, h40, h30⟩ := calc_basic img W H hw hh
  exact ⟨ne_of_gt hh, ne_of_gt (div_pos hw hh), by linarith, by linarith⟩

/-- Witness for C10 at a 50×100 image in a 120×90 box. -/
theorem c10_no_division_by_zero_positive_result_witness :
    (Img.mk 50 100).height ≠ 0 ∧ (Img.mk 50 100).width / (Img.mk 50 100).height ≠ 0
      ∧ 0 < (calculateImageDimensions ⟨50, 100⟩ 120 90).1
      ∧ 0 < (calculateImageDimensions ⟨50, 100⟩ 120 90).2 :=
  c10_no_division_by_zero_positive_result ⟨50, 100⟩ 120 90
    (by norm_num) (by norm_num) (by norm_num) (by norm_num)

/-- C7: when neither minimum-size clamp fires, `calculateImageDimensions`
returns exactly the spec's width-first fill `(W, W/r)` if `W/r ≤ H`, else
`(H*r, H)`; that result fits in the box and attains at least one bound. -/
theorem c7_width_first_fill_no_clamp (img : Img) (W H : ℚ)
    (hw : 0 < img.width) (hh : 0 < img.height) (hW : 0 < W) (hH : 0 < H)
    (hminw : 40 ≤ (widthFirstFill (img.width / img.height) W H).1)
    (hminh : 30 ≤ (widthFirstFill (img.width / img.height) W H).2) :
    calculateImageDimensions img W H = widthFirstFill (img.width / img.height) W H
      ∧ (widthFirstFill (img.width / img.height) W H).1 ≤ W
      ∧ (widthFirstFill (img.width / img.height) W H).2 ≤ H
      ∧ ((widthFirstFill (img.width / img.height) W H).1 = W
          ∨ (widthFirstFill (img.width / img.height) W H).2 = H) := by
  have hr : 0 < img.width / img.height := div_pos hw hh
  set r := img.width / img.height with hrd
  by_cases hc : W / r ≤ H
  · simp only [widthFirstFill, if_pos hc] at hminw hminh ⊢
    have h1 : ¬ (W / r > H) := not_lt.mpr hc
    have h2 : ¬ (W < 40) := not_lt.mpr hminw
    have h3 : ¬ (W / r < 30) := not_lt.mpr hminh
    refine ⟨?_, le_refl W, hc, Or.inl trivial⟩
    simp only [calculateImageDimensions, if_neg h1, if_neg h2, if_neg h3]
  · simp only [widthFirstFill, if_neg hc] at hminw hminh ⊢
    push_neg at hc
    have h1 : W / r > H := hc
    have h2 : ¬ (H * r < 40) := not_lt.mpr hminw
    have h3 : ¬ (H < 30) := not_lt.mpr hminh
    have hWH : H * r < W := by
      have := (lt_div_iff₀ hr).mp hc
      linarith
    refine ⟨?_, le_of_lt hWH, le_refl H, Or.inr trivial⟩
    simp only [calculateImageDimensions, if_pos h1, if_neg h2, if_neg h3]

/-- Witness for C7 at a 100×100 image in a 100×100 box. -/
theorem c7_width_first_fill_no_clamp_witness :
    calculateImageDimensions ⟨100, 100⟩ 100 100
        = widthFirstFill ((Img.mk 100 100).width / (Img.mk 100 100).height) 100 100
      ∧ (widthFirstFill ((Img.mk 100 100).width / (Img.mk 100 100).height) 100 100).1 ≤ 100
      ∧ (widthFirstFill ((Img.mk 100 100).width / (Img.mk 100 100).height) 100 100).2 ≤ 100
      ∧ ((widthFirstFill ((Img.mk 100 100).width / (Img.mk 100 100).height) 100 100).1 = 100
          ∨ (widthFirstFill ((Img.mk 100 100).width / (Img.mk 100 100).height) 100 100).2
              = 100) :=
  c7_width_first_fill_no_clamp ⟨100, 100⟩ 100 100 (by norm_num) (by norm_num) (by norm_num)
    (by norm_num) (by norm_num [widthFirstFill]) (by norm_num [widthFirstFill])

/-! ## Claim C2: side-by-side overlap -/

/-- C2 counterexample: with two 10×1 images (strictly positive intrinsic
dimensions, aspect ratio 10) the minimum-height clamp inflates each placed
width to 300 mm. The first image then spans x ∈ [-91.25, 208.75] while the
second starts at x = 1.25, so `image1.x + image1.width ≤ image2.x` fails. -/
theorem c2_counterexample_overlap :
    generatePDF envWide dataTwo =
      .ok [Event.caption 105 35 28,
           Event.image (-365/4) (307/2) 300 30,
           Event.image (5/4) (307/2) 300 30,
           Event.save "1_n.pdf"]
      ∧ 0 < (envWide.loaded "u1").width ∧ 0 < (envWide.loaded "u1").height
      ∧ 0 < (envWide.loaded "u2").width ∧ 0 < (envWide.loaded "u2").height
      ∧ ¬ ((-365/4 : ℚ) + 300 ≤ 5/4) := by
  refine ⟨?_, by norm_num [envWide], by norm_num [envWide], by norm_num [envWide],
    by norm_num [envWide], by norm_num⟩
  norm_num [generatePDF, generateBody, layoutPages, loadImage, addKoreanText,
    placeImage, savePDF, fileName, envWide, dataTwo, calculateImageDimensions, pageWidth,
    pageHeight, margin, contentWidth, contentHeight, bindStep_ok, getBang_zero, getBang_one]
  try rfl

/-- C2 amended: in the two-images-per-page layout the side-by-side images do
not overlap horizontally provided each image's intrinsic aspect ratio is at
most 93/40 = 2.325 (the threshold `(0.9 · column width) / 30` beyond which
the 30 mm minimum-height clamp pushes a computed width past its column
budget): then `image1.x + image1.width ≤ image2.x`. -/
theorem c2_amended_no_overlap (env : Env) (data : PDFData) (u1 u2 : ImageData)
    (himg : data.images = [u1, u2])
    (hL : ∀ u, env.loadOk u = true)
    (htext : env.textOk = true) (hplace : env.placeOk = true) (hsave : env.saveOk = true)
    (hw1 : 0 < (env.loaded u1.url).width) (hh1 : 0 < (env.loaded u1.url).height)
    (hw2 : 0 < (env.loaded u2.url).width) (hh2 : 0 < (env.loaded u2.url).height)
    (hr1 : (env.loaded u1.url).width / (env.loaded u1.url).height ≤ 93/40)
    (hr2 : (env.loaded u2.url).width / (env.loaded u2.url).height ≤ 93/40) :
    generatePDF env data =
      .ok [Event.caption 105 35 28,
           Event.image
             (20 + (155/2 - (calculateImageDimensions (env.loaded u1.url) (279/4) (1953/10)).1) / 2)
             (60 + (217 - (calculateImageDimensions (env.loaded u1.url) (279/4) (1953/10)).2) / 2)
             (calculateImageDimensions (env.loaded u1.url) (279/4) (1953/10)).1
             (calculateImageDimensions (env.loaded u1.url) (279/4) (1953/10)).2,
           Event.image
             (225/2 + (155/2 - (calculateImageDimensions (env.loaded u2.url) (279/4) (1953/10)).1) / 2)
             (60 + (217 - (calculateImageDimensions (env.loaded u2.url) (279/4) (1953/10)).2) / 2)
             (calculateImageDimensions (env.loaded u2.url) (279/4) (1953/10)).1
             (calculateImageDimensions (env.loaded u2.url) (279/4) (1953/10)).2,
           Event.save (fileName data)]
    ∧ (20 + (155/2 - (calculateImageDimensions (env.loaded u1.url) (279/4) (1953/10)).1) / 2)
        + (calculateImageDimensions (env.loaded u1.url) (279/4) (1953/10)).1
      ≤ 225/2 + (155/2 - (calculateImageDimensions (env.loaded u2.url) (279/4) (1953/10)).1) / 2 := by
  constructor
  · norm_num [generatePDF, generateBody, layoutPages, loadImage, addKoreanText,
      placeImage, savePDF, pageWidth, pageHeight, margin, contentWidth, contentHeight,
      bindStep_ok, getBang_zero, getBang_one, himg, hL, htext, hplace, hsave]
  · have b1 : (calculateImageDimensions (env.loaded u1.url) (279/4) (1953/10)).1 ≤ 279/4 :=
      calc_width_le _ _ _ hw1 hh1 (by norm_num) (by linarith)
    have b2 : (calculateImageDimensions (env.loaded u2.url) (279/4) (1953/10)).1 ≤ 279/4 :=
      calc_width_le _ _ _ hw2 hh2 (by norm_num) (by linarith)
    linarith

/-- Witness for the amended C2 at two square 100×100 images. -/
theorem c2_amended_no_overlap_witness :
    generatePDF envSquare dataTwo =
      .ok [Event.caption 105 35 28,
           Event.image
             (20 + (155/2 - (calculateImageDimensions (envSquare.loaded (ImageData.mk "u1").url)
                (279/4) (1953/10)).1) / 2)
             (60 + (217 - (calculateImageDimensions (envSquare.loaded (ImageData.mk "u1").url)
                (279/4) (1953/10)).2) / 2)
             (calculateImageDimensions (envSquare.loaded (ImageData.mk "u1").url)
                (279/4) (1953/10)).1
             (calculateImageDimensions (envSquare.loaded (ImageData.mk "u1").url)
                (279/4) (1953/10)).2,
           Event.image
             (225/2 + (155/2 - (calculateImageDimensions (envSquare.loaded (ImageData.mk "u2").url)
                (279/4) (1953/10)).1) / 2)
             (60 + (217 - (calculateImageDimensions (envSquare.loaded (ImageData.mk "u2").url)
                (279/4) (1953/10)).2) / 2)
             (calculateImageDimensions (envSquare.loaded (ImageData.mk "u2").url)
                (279/4) (1953/10)).1
             (calculateImageDimensions (envSquare.loaded (ImageData.mk "u2").url)
                (279/4) (1953/10)).2,
           Event.save (fileName dataTwo)]
    ∧ (20 + (155/2 - (calculateImageDimensions (envSquare.loaded (ImageData.mk "u1").url)
          (279/4) (1953/10)).1) / 2)
        + (calculateImageDimensions (envSquare.loaded (ImageData.mk "u1").url)
            (279/4) (1953/10)).1
      ≤ 225/2 + (155/2 - (calculateImageDimensions (envSquare.loaded (ImageData.mk "u2").url)
          (279/4) (1953/10)).1) / 2 :=
  c2_amended_no_overlap envSquare dataTwo ⟨"u1"⟩ ⟨"u2"⟩ rfl (fun u => rfl) rfl rfl rfl
    (by norm_num [envSquare]) (by norm_num [envSquare]) (by norm_num [envSquare])
    (by norm_num [envSquare]) (by norm_num [envSquare]) (by norm_num [envSquare])

/-! ## Claim C3: out-of-range image counts -/

/-- C3: for 0 images or more than 3, the run emits no page break, no caption
and no image, and raises no error (given a working save primitive): the whole
trace is the one save call that serializes the document with its initial
blank page. -/
theorem c3_out_of_range_silent (env : Env) (data : PDFData)
    (h : data.images.length = 0 ∨ 3 < data.images.length)
    (hsave : env.saveOk = true) :
    generatePDF env data = .ok [Event.save (fileName data)] := by
  have h1 : data.images.length ≠ 1 := by rcases h with h | h <;> omega
  have h2 : data.images.length ≠ 2 := by rcases h with h | h <;> omega
  have h3 : data.images.length ≠ 3 := by rcases h with h | h <;> omega
  norm_num [generatePDF, generateBody, layoutPages, savePDF, h1, h2, h3, hsave]

/-- Witness for C3 at an empty image list. -/
theorem c3_out_of_range_silent_witness :
    generatePDF envWide dataNone = .ok [Event.save (fileName dataNone)] :=
  c3_out_of_range_silent envWide dataNone (Or.inl rfl) rfl

/-! ## Claim C5: single surfaced error -/

/-- C5 counterexample: direct text placement fails and the fallback's canvas
rasterization step then throws — yet `generatePDF` raises no error and still
saves and delivers a document that simply lacks its caption: the failure is
swallowed with the discarded, un-awaited fallback promise (line 58), refuting
the claim that any failing step aborts with a `GenerationError`. -/
theorem c5_counterexample_swallowed_fallback_failure :
    envRasterFail.textOk = false ∧ envRasterFail.rasterOk = false
      ∧ generatePDF envRasterFail dataOne =
          .ok [Event.image 37 60 136 136, Event.save "1_n.pdf"] := by
  refine ⟨rfl, rfl, ?_⟩
  norm_num [generatePDF, generateBody, layoutPages, loadImage, addKoreanText, addTextAsImage,
    placeImage, savePDF, fileName, envRasterFail, dataOne, calculateImageDimensions, pageWidth,
    pageHeight, margin, contentWidth, contentHeight, bindStep_ok, getBang_zero]
  try rfl

/-- C5 amended: if image loading, a content-image placement, or the save step
throws — any error the generation body can actually observe — the whole
generation aborts and `generatePDF` surfaces exactly the one localized
`GenerationError` message, delivering no document. Failures inside the
caption rasterization fallback are silently swallowed (its promise is
discarded un-awaited) and generation continues without error. -/
theorem c5_single_generation_error (env : Env) (data : PDFData) (e : StepErr)
    (h : generateBody env data = .error e) :
    generatePDF env data = .error errMsg
      ∧ ∀ t, generatePDF env data ≠ .ok t := by
  refine ⟨by simp [generatePDF, h], fun t => by simp [generatePDF, h]⟩

/-- Witness for C5: a failing image load on a one-image request. -/
theorem c5_single_generation_error_witness :
    generatePDF envLoadFail dataOne = .error errMsg
      ∧ ∀ t, generatePDF envLoadFail dataOne ≠ .ok t :=
  c5_single_generation_error envLoadFail dataOne (.imageLoad "u1")
    (by norm_num [generateBody, layoutPages, loadImage, envLoadFail, dataOne, getBang_zero,
      bindStep_err])

/-! ## Claim C8: rasterized caption geometry -/

/-- C8: whenever the canvas rasterization fallback is used for the caption,
for every raster of positive pixel dimensions the rasterized caption is
placed with width exactly 120, height exactly `120 * (rasterHeight /
rasterWidth)`, at position `(x - width/2, y - height/2)` — centered on the
intended caption anchor `(x, y)`. -/
theorem c8_raster_caption_geometry (env : Env) (x y fontSize : ℚ)
    (hw : 0 < env.raster.width) (hh : 0 < env.raster.height)
    (hra : env.rasterOk = true) (hp : env.placeOk = true) :
    addTextAsImage env x y fontSize =
      [Event.captionImg (x - 120 / 2)
        (y - 120 * (env.raster.height / env.raster.width) / 2)
        120
        (120 * (env.raster.height / env.raster.width))] := by
  have h1 : env.raster.height / env.raster.width * 120
      = 120 * (env.raster.height / env.raster.width) := by ring
  simp [addTextAsImage, hra, hp, h1]

/-- Witness for C8 at a 2000×200 raster and anchor (105, 35). -/
theorem c8_raster_caption_geometry_witness :
    addTextAsImage envWide 105 35 84 =
      [Event.captionImg (105 - 120 / 2)
        (35 - 120 * (envWide.raster.height / envWide.raster.width) / 2)
        120
        (120 * (envWide.raster.height / envWide.raster.width))] :=
  c8_raster_caption_geometry envWide 105 35 84 (by norm_num [envWide]) (by norm_num [envWide])
    rfl rfl

/-! ## Claim C4: page counts -/

/-- C4: for 1, 2 or 3 images (all collaborators succeeding), the produced
document has 1, 1 and 2 pages respectively. -/
theorem c4_expected_page_counts (env : Env) (data : PDFData)
    (hL : ∀ u, env.loadOk u = true) (hplace : env.placeOk = true) (hsave : env.saveOk = true)
    (hcap : env.textOk = true ∨ env.rasterOk = true)
    (hlo : 1 ≤ data.images.length) (hhi : data.images.length ≤ 3) :
    resultPageCount (generatePDF env data)
      = some (if data.images.length = 3 then 2 else 1) := by
  have hcases : data.images.length = 1 ∨ data.images.length = 2 ∨ data.images.length = 3 := by
    omega
  have hcap2 : env.textOk = true ∨ (env.textOk = false ∧ env.rasterOk = true) := by
    cases ht : env.textOk
    · rcases hcap with h | h
      · exact absurd h (by simp [ht])
      · exact Or.inr ⟨rfl, h⟩
    · exact Or.inl rfl
  rcases hcases with h | h | h
  · obtain ⟨a, ha⟩ := List.length_eq_one.mp h
    rcases hcap2 with ht | ⟨ht, hra⟩ <;>
      simp_all [resultPageCount, pageCount, generatePDF, generateBody, layoutPages, loadImage,
        addKoreanText, addTextAsImage, placeImage, savePDF, bindStep_ok, getBang_zero,
        getBang_one, getBang_two, isPageEv, List.countP_cons, List.countP_nil]
  · obtain ⟨a, b, hab⟩ := List.length_eq_two.mp h
    rcases hcap2 with ht | ⟨ht, hra⟩ <;>
      simp_all [resultPageCount, pageCount, generatePDF, generateBody, layoutPages, loadImage,
        addKoreanText, addTextAsImage, placeImage, savePDF, bindStep_ok, getBang_zero,
        getBang_one, getBang_two, isPageEv, List.countP_cons, List.countP_nil]
  · obtain ⟨a, b, c, habc⟩ := List.length_eq_three.mp h
    rcases hcap2 with ht | ⟨ht, hra⟩ <;>
      simp_all [resultPageCount, pageCount, generatePDF, generateBody, layoutPages, loadImage,
        addKoreanText, addTextAsImage, placeImage, savePDF, bindStep_ok, getBang_zero,
        getBang_one, getBang_two, isPageEv, List.countP_cons, List.countP_nil]

/-- Witness for C4 on a successful two-image run. -/
theorem c4_expected_page_counts_witness :
    resultPageCount (generatePDF envWide dataTwo)
      = some (if dataTwo.images.length = 3 then 2 else 1) :=
  c4_expected_page_counts envWide dataTwo (fun u => rfl) rfl rfl (Or.inl rfl)
    (by decide) (by decide)

/-! ## Claim C9: caption before images, pages in order -/

/-- C9 counterexample: a successful one-image run on the fallback path
(direct text fails, rasterization succeeds). The fallback promise is never
awaited, so its raster caption is placed in a later task — after the content
image and after the save call — and the per-page caption-before-image
ordering fails. -/
theorem c9_counterexample_deferred_caption :
    generatePDF envFallback dataOne =
      .ok [Event.image 37 60 136 136, Event.save "1_n.pdf", Event.captionImg 45 29 120 12]
      ∧ ¬ pagewiseOk 1 (generatePDF envFallback dataOne) := by
  have h : generatePDF envFallback dataOne =
      .ok [Event.image 37 60 136 136, Event.save "1_n.pdf", Event.captionImg 45 29 120 12] := by
    norm_num [generatePDF, generateBody, layoutPages, loadImage, addKoreanText, addTextAsImage,
      placeImage, savePDF, fileName, envFallback, dataOne, calculateImageDimensions, pageWidth,
      pageHeight, margin, contentWidth, contentHeight, bindStep_ok, getBang_zero]
    try rfl
  refine ⟨h, ?_⟩
  rw [h]
  norm_num [pagewiseOk, pageSegments, capBeforeImg, isPageEv, isCaptionEv, isImageEv,
    List.dropWhile]

/-- C9 amended: on every successful run with 1–3 images in which the direct
text placement succeeds, the trace splits at the page breaks into exactly the
expected consecutive page segments — so pages are emitted strictly in numeric
order — and within each page segment the caption is placed before every
content image. (On the canvas fallback path the un-awaited raster caption is
placed only in a later task, after the content images, so the ordering fails
there.) -/
theorem c9_caption_precedes_images (env : Env) (data : PDFData)
    (hL : ∀ u, env.loadOk u = true) (hplace : env.placeOk = true) (hsave : env.saveOk = true)
    (htext : env.textOk = true)
    (hlo : 1 ≤ data.images.length) (hhi : data.images.length ≤ 3) :
    pagewiseOk (if data.images.length = 3 then 2 else 1) (generatePDF env data) := by
  have hcases : data.images.length = 1 ∨ data.images.length = 2 ∨ data.images.length = 3 := by
    omega
  rcases hcases with h | h | h
  · obtain ⟨a, ha⟩ := List.length_eq_one.mp h
    simp_all [pagewiseOk, pageSegments, capBeforeImg, generatePDF, generateBody, layoutPages,
      loadImage, addKoreanText, placeImage, savePDF, bindStep_ok, getBang_zero,
      getBang_one, getBang_two, isPageEv, isCaptionEv, isImageEv, List.dropWhile]
  · obtain ⟨a, b, hab⟩ := List.length_eq_two.mp h
    simp_all [pagewiseOk, pageSegments, capBeforeImg, generatePDF, generateBody, layoutPages,
      loadImage, addKoreanText, placeImage, savePDF, bindStep_ok, getBang_zero,
      getBang_one, getBang_two, isPageEv, isCaptionEv, isImageEv, List.dropWhile]
  · obtain ⟨a, b, c, habc⟩ := List.length_eq_three.mp h
    simp_all [pagewiseOk, pageSegments, capBeforeImg, generatePDF, generateBody, layoutPages,
      loadImage, addKoreanText, placeImage, savePDF, bindStep_ok, getBang_zero,
      getBang_one, getBang_two, isPageEv, isCaptionEv, isImageEv, List.dropWhile]

/-- Witness for the amended C9 on a successful three-image run with direct
text placement. -/
theorem c9_caption_precedes_images_witness :
    pagewiseOk (if dataThree.images.length = 3 then 2 else 1) (generatePDF envWide dataThree) :=
  c9_caption_precedes_images envWide dataThree (fun u => rfl) rfl rfl rfl
    (by decide) (by decide)

/-! ## Claim C6: the 3-image layout refines the 2-image and 1-image layouts -/

set_option maxHeartbeats 3200000 in
/-- C6: the layout of a 3-image request is exactly the layout the 2-image
branch computes for the first two images, then a page break, then the layout
the 1-image branch computes for the third image — caption and image
placements included, in all collaborator environments, also when a step
fails. -/
theorem c6_three_image_layout_is_two_then_one (env : Env) (id nm : String)
    (i1 i2 i3 : ImageData) :
    layoutPages env ⟨id, nm, [i1, i2, i3]⟩ =
      (layoutPages env ⟨id, nm, [i1, i2]⟩).bind fun firstPage =>
        (layoutPages env ⟨id, nm, [i3]⟩).bind fun secondPage =>
          .ok (firstPage.1 ++ [Event.page] ++ secondPage.1, firstPage.2 ++ secondPage.2) := by
  cases hA : env.loadOk i1.url <;> cases hB : env.loadOk i2.url <;>
    cases hC : env.loadOk i3.url <;> cases hT : env.textOk <;>
    cases hR : env.rasterOk <;> cases hP : env.placeOk <;>
    simp [layoutPages, loadImage, addKoreanText, addTextAsImage, placeImage, getBang_zero,
      getBang_one, getBang_two, hA, hB, hC, hT, hR, hP, Except.bind, bindStep_ok, bindStep_err]
